import Mathlib

/-!
Shallow embedding of `src/server.py`, the LLM Jukebox MCP server.

The program glues two external collaborators (a media-search/download
library and an RPC framework) with three functions:

* `get_youtube_info` (the Resolver, lines 45–70): one search call, first
  entry or `None`;
* `download_and_store_track` (the Fetcher, lines 72–129): one download
  call driven by a progress hook, extension normalisation, message
  building, broad re-raise;
* `download_and_play` (the Request Handler, lines 131–157): sequences the
  two and collapses every outcome to a text message.

The collaborators are modelled by explicit behaviour values passed to the
embedded functions (`SearchOutcome` for `ydl.extract_info`,
`DownloadBehavior` for `ydl.download` together with the progress-hook
events it emits).  Python exceptions become `Except`/explicit error
values; Python dictionaries become association lists; `pathlib` path
arithmetic (POSIX flavour) is reimplemented on character lists below,
following the reference implementation of `PurePath.name`,
`PurePath.suffix` and `PurePath.with_suffix`.
-/

/-- A Python exception value reduced to what the program observes of it:
the exception class name and `str(e)`. -/
structure PyErr where
  ty : String
  msg : String
deriving Repr, DecidableEq

deriving instance DecidableEq for Except

/-- A yt-dlp video-info dictionary, as an association list from field
names to string values.  The empty list models the empty (falsy) dict. -/
abbrev VideoInfo := List (String × String)

/-- Python `d.get(k, dflt)`: `dict.get` with a default. -/
def pyGet (d : VideoInfo) (k : String) (dflt : String) : String :=
  (List.lookup k d).getD dflt

/-- The top-level object returned by `ydl.extract_info` for a search:
a dict that may lack the `"entries"` key (`entries = none`).  An empty
(falsy) dict is `⟨none⟩`: the code's `not info` test and its
`"entries" not in info` test send it down the same path. -/
structure SearchInfo where
  entries : Option (List VideoInfo)

/-- One call of the media-search collaborator (`ydl.extract_info`,
line 63): it raises, returns `None`, or returns an info dict. -/
abbrev SearchOutcome := Except PyErr (Option SearchInfo)

/-- Lines 45–70, `get_youtube_info`: returns the first search entry, or
`None` when the collaborator raises, returns a falsy object, omits
`"entries"`, or returns an empty entry list.  The `except` clause
discards the error entirely. -/
def get_youtube_info (sr : SearchOutcome) : Option VideoInfo :=
  match sr with
  | .error _ => none
  | .ok none => none
  | .ok (some info) =>
    match info.entries with
    | none => none
    | some [] => none
    | some (e :: _) => some e

/-! ### pathlib (POSIX) on character lists

`PurePosixPath` parsing keeps the non-empty, non-`"."` components of the
string split on `/`; `name` is the last such component; `suffix` is
`name[i:]` for `i` the index of the last dot when `0 < i < len(name)-1`,
else empty; `with_suffix` swaps the suffix on the final component and
raises `ValueError` when the name is empty. -/

/-- Helper for splitting on `/`: first field and remaining fields. -/
def splitSlashA : List Char → List Char × List (List Char)
  | [] => ([], [])
  | c :: cs =>
    let r := splitSlashA cs
    if c = '/' then ([], r.1 :: r.2) else (c :: r.1, r.2)

/-- Split a character list on `/` (like `str.split("/")`). -/
def splitSlash (cs : List Char) : List (List Char) :=
  (splitSlashA cs).1 :: (splitSlashA cs).2

/-- A component survives `PurePath` parsing iff it is non-empty and not
`"."`. -/
def isPathPart (p : List Char) : Bool := !p.isEmpty && p != ['.']

/-- The parsed components of a POSIX path string. -/
def pathPartsL (cs : List Char) : List (List Char) :=
  (splitSlash cs).filter isPathPart

/-- The final component (`PurePath.name`), `""` when there is none. -/
def pathNameL (cs : List Char) : List Char := (pathPartsL cs).getLastD []

/-- Join components with `/` (no leading or trailing separator). -/
def joinSlash : List (List Char) → List Char
  | [] => []
  | [p] => p
  | p :: q :: ps => p ++ '/' :: joinSlash (q :: ps)

/-- Python `str(path)` from a root flag and components: `"."` for an empty
relative path, otherwise the components joined with `/`, with a leading
`/` when absolute. -/
def pathStrL (isAbs : Bool) (parts : List (List Char)) : List Char :=
  if isAbs then '/' :: joinSlash parts
  else if parts.isEmpty then ['.'] else joinSlash parts

/-- Index of the last `'.'` in a character list (`str.rfind('.')`),
`none` when absent. -/
def lastDotIdx : List Char → Option Nat
  | [] => none
  | c :: cs =>
    match lastDotIdx cs with
    | some i => some (i + 1)
    | none => if c = '.' then some 0 else none

/-- Python `PurePath.suffix` on an already-extracted final component:
`name[i:]` for `i = name.rfind('.')` when `0 < i < len(name) - 1`,
otherwise `""`. -/
def pySuffixOfName (name : List Char) : List Char :=
  match lastDotIdx name with
  | none => []
  | some i => if 0 < i ∧ i < name.length - 1 then name.drop i else []

/-- Python `Path(s).name` as a string. -/
def pathName (s : String) : String := ⟨pathNameL s.data⟩

/-- Python `Path(s).suffix` as a string. -/
def pySuffix (s : String) : String := ⟨pySuffixOfName (pathNameL s.data)⟩

/-- Python `str(Path(s))`: the normalised form of the path string. -/
def pathStr (s : String) : String :=
  ⟨pathStrL (s.data.head? == some '/') (pathPartsL s.data)⟩

/-- Python `Path(s).with_suffix(sfx)` for an already-valid suffix argument such
as `".mp3"`: replaces (or appends, when there is none) the suffix of the
final component; raises `ValueError` when the path has an empty name. -/
def pyWithSuffix (s : String) (sfx : String) : Except PyErr String :=
  let cs := s.data
  let name := pathNameL cs
  if name.isEmpty then
    .error ⟨"ValueError", "PosixPath(\x27" ++ pathStr s ++ "\x27) has an empty name"⟩
  else
    let old := pySuffixOfName name
    let newName := name.take (name.length - old.length) ++ sfx.data
    .ok ⟨pathStrL (cs.head? == some '/') ((pathPartsL cs).dropLast ++ [newName])⟩

/-! ### The Fetcher: `download_and_store_track` (lines 72–129) -/

/-- One invocation of the progress hook (lines 85–87): the dict `d`,
reduced to the two keys the hook reads. -/
structure HookEvent where
  status : String
  filename : String
deriving Repr, DecidableEq

/-- Behaviour of one `ydl.download([yt_query])` call (line 106): either
it raises, or it returns after invoking the progress hook once per
event, in order. -/
inductive DownloadBehavior where
  | raises (e : PyErr)
  | completes (events : List HookEvent)
deriving Repr, DecidableEq

/-- What one run of the Fetcher did: the argument string passed to
`ydl.download` (line 103/106), and the returned message or the raised
exception. -/
structure FetchResult where
  request : String
  outcome : Except PyErr String

/-- Python `str.lower()` on a character list (ASCII range, which is all the
comparison against `".mp3"` can be sensitive to). -/
def lowerL (cs : List Char) : List Char := cs.map Char.toLower

/-- Lines 110–113: ensure `.mp3` extension on the reported file.  The
`ValueError` that `with_suffix` raises on an empty name propagates. -/
def ensureMp3 (music_file : String) : Except PyErr String :=
  if lowerL (pySuffix music_file).data ≠ ".mp3".data then pyWithSuffix music_file ".mp3"
  else .ok music_file

/-- Lines 118–122: the success f-string, from the track title, the
uploader and the base name of the final file. -/
def success_msg (title artist fname : String) : String :=
  "Downloaded and playing: \x27" ++ title ++ "\x27 by " ++ artist
    ++ "\nFile saved as: " ++ fname ++ "\nAdded to music library database.\n"

/-- Lines 72–129, `download_and_store_track`: runs the download
collaborator on `"ytsearch1:" ++ query`, collects the filenames of the
`"finished"` hook events, and builds the returned message from the first
one; any exception is re-raised as
`Exception("Failed to download track: " + str(e))`. -/
def download_and_store_track (video_info : VideoInfo) (download : DownloadBehavior)
    (query : String) : FetchResult :=
  let yt_query := "ytsearch1:" ++ query
  ⟨yt_query,
    match download with
    | .raises e => .error ⟨"Exception", "Failed to download track: " ++ e.msg⟩
    | .completes events =>
      let downloaded_files := (events.filter (fun d => d.status == "finished")).map
        (fun d => d.filename)
      match downloaded_files with
      | [] => .ok ("Download completed for: " ++ query ++ ", but no files were found.")
      | music_file :: _ =>
        match ensureMp3 music_file with
        | .error e => .error ⟨"Exception", "Failed to download track: " ++ e.msg⟩
        | .ok music_file =>
          let title := pyGet video_info "title" "Unknown Title"
          let artist := pyGet video_info "uploader" "Unknown Artist"
          .ok (success_msg title artist (pathName music_file))⟩

/-! ### The Request Handler: `download_and_play` (lines 131–157) -/

/-- Lines 131–157, `download_and_play`, instrumented: the returned
message together with a flag recording whether the Fetcher was invoked.
The handler itself never raises: both collaborator failure modes are
caught before they reach the RPC transport. -/
def download_and_play_run (sr : SearchOutcome) (download : DownloadBehavior)
    (query : String) : String × Bool :=
  match get_youtube_info sr with
  | none => ("No search results found on YouTube for your query.", false)
  | some video_info =>
    if video_info.isEmpty then
      ("No search results found on YouTube for your query.", false)
    else
      match (download_and_store_track video_info download query).outcome with
      | .ok result => (result, true)
      | .error e => ("‚ùå Error processing request: " ++ e.msg, true)

/-- The handler's externally observable value: the returned text. -/
def download_and_play (sr : SearchOutcome) (download : DownloadBehavior)
    (query : String) : String :=
  (download_and_play_run sr download query).1

/-! ### Startup configuration (lines 17–18) -/

/-- Line 17: `download_path = Path(os.environ.get("DOWNLOAD_PATH", "./"))`. -/
def download_path (env : List (String × String)) : String :=
  (List.lookup "DOWNLOAD_PATH" env).getD "./"

/-- Python `Path.mkdir(exist_ok=·)` over a filesystem modelled as the list of
existing directories: raises `FileExistsError` only when the directory
exists and `exist_ok` is false. -/
def pyMkdir (fs : List String) (p : String) (exist_ok : Bool) :
    Except PyErr (List String) :=
  if p ∈ fs then
    if exist_ok then .ok fs else .error ⟨"FileExistsError", p⟩
  else .ok (p :: fs)

/-- Line 18: `download_path.mkdir(exist_ok=True)` at startup. -/
def startup (env : List (String × String)) (fs : List String) :
    Except PyErr (List String) :=
  pyMkdir fs (download_path env) true

/-- Occurrence of `sub` as a contiguous substring of `s`. -/
def containsStr (s sub : String) : Prop :=
  ∃ pre post : List Char, s.data = pre ++ sub.data ++ post

/-! ### Path-model lemmas -/

theorem splitSlashA_no_slash {p : List Char} (hp : '/' ∉ p) :
    splitSlashA p = (p, []) := by
  induction p with
  | nil => rfl
  | cons c cs ih =>
    simp only [List.mem_cons, not_or] at hp
    simp [splitSlashA, ih hp.2, Ne.symm hp.1]

theorem splitSlashA_append {p : List Char} (rest : List Char) (hp : '/' ∉ p) :
    splitSlashA (p ++ '/' :: rest) = (p, splitSlash rest) := by
  induction p with
  | nil => simp [splitSlashA, splitSlash]
  | cons c cs ih =>
    simp only [List.mem_cons, not_or] at hp
    simp [splitSlashA, ih hp.2, Ne.symm hp.1]

theorem splitSlash_no_slash {p : List Char} (hp : '/' ∉ p) : splitSlash p = [p] := by
  simp [splitSlash, splitSlashA_no_slash hp]

theorem splitSlash_join {parts : List (List Char)} (hne : parts ≠ [])
    (hp : ∀ p ∈ parts, '/' ∉ p) : splitSlash (joinSlash parts) = parts := by
  induction parts with
  | nil => exact absurd rfl hne
  | cons p ps ih =>
    cases ps with
    | nil => simpa [joinSlash] using splitSlash_no_slash (hp p (by simp))
    | cons q qs =>
      have h1 : '/' ∉ p := hp p (by simp)
      have h2 : splitSlash (joinSlash (q :: qs)) = q :: qs :=
        ih (by simp) (fun r hr => hp r (by simp [hr]))
      rw [splitSlash] at h2
      injection h2 with h2a h2b
      simp [joinSlash, splitSlash, splitSlashA_append _ h1, h2a, h2b]

theorem splitSlashA_no_slash_out (cs : List Char) :
    '/' ∉ (splitSlashA cs).1 ∧ ∀ p ∈ (splitSlashA cs).2, '/' ∉ p := by
  induction cs with
  | nil => simp [splitSlashA]
  | cons c cs ih =>
    by_cases hc : c = '/'
    · subst hc
      simp only [splitSlashA, if_pos rfl]
      refine ⟨by simp, ?_⟩
      intro p hp
      rcases List.mem_cons.mp hp with h | h
      · exact h ▸ ih.1
      · exact ih.2 p h
    · simp only [splitSlashA, if_neg hc]
      refine ⟨?_, ih.2⟩
      intro h
      rcases List.mem_cons.mp h with h' | h'
      · exact hc h'.symm
      · exact ih.1 h'

theorem splitSlash_no_slash_mem {cs : List Char} {p : List Char} (hp : p ∈ splitSlash cs) :
    '/' ∉ p := by
  rcases List.mem_cons.mp hp with h | h
  · exact h ▸ (splitSlashA_no_slash_out cs).1
  · exact (splitSlashA_no_slash_out cs).2 p h

theorem pathPartsL_no_slash {cs : List Char} {p : List Char} (hp : p ∈ pathPartsL cs) :
    '/' ∉ p :=
  splitSlash_no_slash_mem (List.mem_of_mem_filter hp)

theorem pathPartsL_pathStrL (isAbs : Bool) (parts : List (List Char))
    (hv : ∀ p ∈ parts, isPathPart p = true) (hs : ∀ p ∈ parts, '/' ∉ p) :
    pathPartsL (pathStrL isAbs parts) = parts := by
  have hfilter : List.filter isPathPart parts = parts := List.filter_eq_self.mpr hv
  cases isAbs with
  | false =>
    cases parts with
    | nil => simp [pathStrL, pathPartsL, splitSlash, splitSlashA, isPathPart]
    | cons p ps =>
      rw [pathStrL]
      simp only [List.isEmpty_cons, Bool.false_eq_true, if_false, if_neg]
      rw [pathPartsL, splitSlash_join (by simp) hs, hfilter]
  | true =>
    rw [pathStrL, if_pos rfl]
    have habs : splitSlash ('/' :: joinSlash parts) = [] :: splitSlash (joinSlash parts) := by
      simp [splitSlash, splitSlashA]
    rw [pathPartsL, habs]
    cases parts with
    | nil => simp [joinSlash, splitSlash, splitSlashA, isPathPart]
    | cons p ps =>
      rw [List.filter_cons]
      simp only [isPathPart, List.isEmpty_nil, Bool.not_true, Bool.false_and, if_false, if_neg]
      rw [splitSlash_join (by simp) hs]
      exact hfilter

theorem lastDotIdx_append_mp3 (xs : List Char) :
    lastDotIdx (xs ++ ".mp3".data) = some xs.length := by
  induction xs with
  | nil => decide
  | cons c cs ih => simp [lastDotIdx, ih]

theorem pySuffixOfName_concat_mp3 {stem : List Char} (h : stem ≠ []) :
    pySuffixOfName (stem ++ ".mp3".data) = ".mp3".data := by
  have h0 : 0 < stem.length := List.length_pos.mpr h
  have h2 : lastDotIdx (stem ++ ['.', 'm', 'p', '3']) = some stem.length :=
    lastDotIdx_append_mp3 stem
  have h3 : stem.length < stem.length + 3 := by omega
  have h4 : List.drop stem.length (stem ++ ['.', 'm', 'p', '3']) = ['.', 'm', 'p', '3'] :=
    List.drop_left _ _
  simp [pySuffixOfName, h2, h0, h3, h4]

theorem pySuffixOfName_cases (name : List Char) :
    pySuffixOfName name = [] ∨
      ∃ i, 0 < i ∧ i < name.length - 1 ∧ pySuffixOfName name = name.drop i := by
  cases h : lastDotIdx name with
  | none => left; simp [pySuffixOfName, h]
  | some i =>
    by_cases hc : 0 < i ∧ i < name.length - 1
    · right; exact ⟨i, hc.1, hc.2, by simp [pySuffixOfName, h, hc]⟩
    · left; simp [pySuffixOfName, h, hc]

theorem pyWithSuffix_mp3_ok {s : String} (h : pathNameL s.data ≠ []) :
    ∃ out : String, pyWithSuffix s ".mp3" = .ok out ∧
      pathNameL out.data =
        (pathNameL s.data).take
            ((pathNameL s.data).length - (pySuffixOfName (pathNameL s.data)).length)
          ++ ".mp3".data ∧
      pySuffixOfName (pathNameL out.data) = ".mp3".data := by
  set name := pathNameL s.data with hname
  set parts := pathPartsL s.data with hparts
  have hpne : parts ≠ [] := by
    intro hp
    exact h (by rw [hname, pathNameL, ← hparts, hp]; rfl)
  have hconcat : parts.dropLast ++ [parts.getLast hpne] = parts :=
    List.dropLast_append_getLast hpne
  have hname_last : name = parts.getLast hpne := by
    rw [hname, pathNameL, ← hparts]
    conv_lhs => rw [← hconcat]
    rw [List.getLastD_concat]
  have hname_mem : name ∈ parts := hname_last ▸ List.getLast_mem hpne
  have hname_noslash : '/' ∉ name := pathPartsL_no_slash (hparts ▸ hname_mem)
  set stem := name.take (name.length - (pySuffixOfName name).length) with hstem
  have hstem_ne : stem ≠ [] := by
    rcases pySuffixOfName_cases name with h0 | ⟨i, hi0, hi1, heq⟩
    · rw [hstem, h0]
      simpa [List.take_length] using h
    · rw [hstem, heq, List.length_drop]
      intro hnil
      have hl := congrArg List.length hnil
      rw [List.length_take] at hl
      simp only [List.length_nil] at hl
      omega
  set newName := stem ++ ".mp3".data with hnew
  have hnew_noslash : '/' ∉ newName := by
    rw [hnew]
    intro hmem
    rcases List.mem_append.mp hmem with hm | hm
    · exact hname_noslash (List.take_subset _ _ hm)
    · revert hm; decide
  have hnew_part : isPathPart newName = true := by
    have hne : newName ≠ [] := by
      rw [hnew]
      intro hnil
      have := congrArg List.length hnil
      rw [List.length_append] at this
      simp at this
    have hnd : newName ≠ ['.'] := by
      rw [hnew]
      intro hd
      have := congrArg List.length hd
      rw [List.length_append] at this
      have h4 : (".mp3".data).length = 4 := by decide
      rw [h4] at this
      simp at this
    simp [isPathPart, List.isEmpty_iff, hne, hnd]
  have hparts_valid : ∀ p ∈ parts.dropLast ++ [newName], isPathPart p = true := by
    intro p hp
    rcases List.mem_append.mp hp with hm | hm
    · have : p ∈ parts := by
        rw [← hconcat]; exact List.mem_append_left _ hm
      exact List.of_mem_filter (hparts ▸ this)
    · rw [List.mem_singleton.mp hm]; exact hnew_part
  have hparts_noslash : ∀ p ∈ parts.dropLast ++ [newName], '/' ∉ p := by
    intro p hp
    rcases List.mem_append.mp hp with hm | hm
    · have : p ∈ parts := by
        rw [← hconcat]; exact List.mem_append_left _ hm
      exact pathPartsL_no_slash (hparts ▸ this)
    · rw [List.mem_singleton.mp hm]; exact hnew_noslash
  have hout :
      pyWithSuffix s ".mp3"
        = .ok ⟨pathStrL (s.data.head? == some '/') (parts.dropLast ++ [newName])⟩ := by
    rw [pyWithSuffix]
    simp only [← hname, ← hparts, ← hstem, ← hnew]
    rw [if_neg (by simpa [List.isEmpty_iff] using h)]
  refine ⟨_, hout, ?_, ?_⟩
  · show pathNameL (pathStrL (s.data.head? == some '/') (parts.dropLast ++ [newName])) = _
    rw [pathNameL, pathPartsL_pathStrL _ _ hparts_valid hparts_noslash, List.getLastD_concat,
      hnew, hstem, hname]
  · show pySuffixOfName
        (pathNameL (pathStrL (s.data.head? == some '/') (parts.dropLast ++ [newName])))
      = ".mp3".data
    rw [pathNameL, pathPartsL_pathStrL _ _ hparts_valid hparts_noslash, List.getLastD_concat,
      hnew]
    exact pySuffixOfName_concat_mp3 hstem_ne

theorem ensureMp3_ok {f : String} (h : pathNameL f.data ≠ []) :
    ∃ nf : String, ensureMp3 f = .ok nf ∧
      lowerL (pySuffix nf).data = ".mp3".data ∧
      (lowerL (pySuffix f).data ≠ ".mp3".data → pySuffix nf = ".mp3") ∧
      (lowerL (pySuffix f).data = ".mp3".data → nf = f) := by
  by_cases hc : lowerL (pySuffix f).data = ".mp3".data
  · exact ⟨f, by simp [ensureMp3, hc], hc, fun hn => absurd hc hn, fun _ => rfl⟩
  · obtain ⟨out, hok, _, hsfx⟩ := pyWithSuffix_mp3_ok h
    have hout_sfx : pySuffix out = ".mp3" := by
      rw [pySuffix, hsfx]
    refine ⟨out, ?_, ?_, fun _ => hout_sfx, fun hceq => absurd hceq hc⟩
    · rw [ensureMp3, if_pos hc, hok]
    · rw [hout_sfx]; decide

/-! ### Substring helpers -/

theorem containsStr_refl (s : String) : containsStr s s :=
  ⟨[], [], by simp⟩

theorem containsStr_left {s sub : String} (t : String) (h : containsStr s sub) :
    containsStr (t ++ s) sub := by
  obtain ⟨pre, post, hp⟩ := h
  exact ⟨t.data ++ pre, post, by simp [String.data_append, hp]⟩

theorem containsStr_right {s sub : String} (t : String) (h : containsStr s sub) :
    containsStr (s ++ t) sub := by
  obtain ⟨pre, post, hp⟩ := h
  exact ⟨pre, post ++ t.data, by simp [String.data_append, hp]⟩

theorem success_msg_contains (t u nm : String) :
    containsStr (success_msg t u nm) t ∧ containsStr (success_msg t u nm) u ∧
      containsStr (success_msg t u nm) nm := by
  refine ⟨?_, ?_, ?_⟩
  · exact containsStr_right _ (containsStr_right _ (containsStr_right _ (containsStr_right _
      (containsStr_right _ (containsStr_left _ (containsStr_refl t))))))
  · exact containsStr_right _ (containsStr_right _ (containsStr_right _
      (containsStr_left _ (containsStr_refl u))))
  · exact containsStr_right _ (containsStr_left _ (containsStr_refl nm))

/-- Shared unfolding of the Fetcher's success branch: when the finished
files start with `f` and the extension step returns `nf`, the outcome is
the success message built from the item's title, its uploader and the
final file's base name. -/
theorem fetch_success_outcome (vi : VideoInfo) (q : String) (evs : List HookEvent)
    (f : String) (rest : List String)
    (hfiles : (evs.filter (fun d => d.status == "finished")).map (fun d => d.filename)
      = f :: rest)
    {nf : String} (hok : ensureMp3 f = .ok nf) :
    (download_and_store_track vi (.completes evs) q).outcome =
      .ok (success_msg (pyGet vi "title" "Unknown Title") (pyGet vi "uploader" "Unknown Artist")
        (pathName nf)) := by
  simp only [download_and_store_track, hfiles, hok]

/-! ### Claim theorems -/

/-- C1 counterexample: the claim that the Fetcher downloads the stream
identified by the resolved item's opaque identifier is false.  Two
resolved items with different identifiers produce the identical download
request for the same query (here `"ytsearch1:believer"`), so the request
sent to the collaborator cannot identify the resolved item. -/
theorem c1_counterexample :
    pyGet [("id", "dQw4w9WgXcQ")] "id" "" ≠ pyGet [("id", "zzz9other00")] "id" ""
    ∧ (download_and_store_track [("id", "dQw4w9WgXcQ")] (.completes []) "believer").request
      = (download_and_store_track [("id", "zzz9other00")] (.completes []) "believer").request
    ∧ (download_and_store_track [("id", "dQw4w9WgXcQ")] (.completes []) "believer").request
      = "ytsearch1:believer" :=
  ⟨by decide, rfl, rfl⟩

/-- C1 amended: the download request issued by `download_and_store_track`
is built solely from the original query, as `"ytsearch1:" ++ query`
(line 103/106); the resolved item's identifier plays no part in it. -/
theorem c1_amended_request_from_query_only (vi : VideoInfo) (dl : DownloadBehavior)
    (q : String) : (download_and_store_track vi dl q).request = "ytsearch1:" ++ q :=
  rfl

/-- The search collaborator raised, returned a falsy object, or yielded
an empty or missing entry list: the scenarios of claim C3. -/
def searchFailedOrEmpty : SearchOutcome → Prop
  | .error _ => True
  | .ok none => True
  | .ok (some si) => si.entries = none ∨ si.entries = some []

/-- C3: when the search yields zero results or the collaborator raises
any error, the Resolver returns `None` (the error itself is discarded:
the result is `none` whatever the error was), and the Request Handler
returns the fixed no-results message without invoking the Fetcher
(the run flag is `false`). -/
theorem c3_notfound_short_circuits_handler (sr : SearchOutcome) (dl : DownloadBehavior)
    (q : String) (h : searchFailedOrEmpty sr) :
    get_youtube_info sr = none ∧
    download_and_play_run sr dl q
      = ("No search results found on YouTube for your query.", false) := by
  have hres : get_youtube_info sr = none := by
    rcases sr with e | osi
    · rfl
    · rcases osi with _ | si
      · rfl
      · rcases h with h | h <;> simp [get_youtube_info, h]
  exact ⟨hres, by simp [download_and_play_run, hres]⟩

/-- Witness for C3 at a concrete raising search collaborator. -/
theorem c3_witness :
    searchFailedOrEmpty (.error ⟨"DownloadError", "network is unreachable"⟩) ∧
    (get_youtube_info (.error ⟨"DownloadError", "network is unreachable"⟩) = none ∧
      download_and_play_run (.error ⟨"DownloadError", "network is unreachable"⟩)
        (.completes []) "some query"
        = ("No search results found on YouTube for your query.", false)) :=
  ⟨trivial, c3_notfound_short_circuits_handler _ _ _ trivial⟩

/-- C5: when the collaborator completes without any `"finished"` hook
event, the Fetcher does not fail: it returns (as a normal value) the
distinct informational message that the download completed but no files
were found. -/
theorem c5_no_finished_hook_is_not_failure (vi : VideoInfo) (q : String)
    (evs : List HookEvent) (h : evs.filter (fun d => d.status == "finished") = []) :
    (download_and_store_track vi (.completes evs) q).outcome
      = .ok ("Download completed for: " ++ q ++ ", but no files were found.") := by
  simp [download_and_store_track, h]

/-- Witness for C5: a download whose only hook events are not "finished". -/
theorem c5_witness :
    ([⟨"downloading", "f.webm"⟩] : List HookEvent).filter (fun d => d.status == "finished") = []
    ∧ (download_and_store_track [] (.completes [⟨"downloading", "f.webm"⟩]) "my query").outcome
      = .ok ("Download completed for: " ++ "my query" ++ ", but no files were found.") :=
  ⟨by decide, c5_no_finished_hook_is_not_failure [] "my query" _ (by decide)⟩

/-- C6: any error the collaborator raises during download is re-raised as
exactly one `Exception` whose payload is the fixed prefix followed by the
stringified message of the underlying error; errors with the same
stringified message — whatever their type — produce the identical
re-raised error, so the original type and context are discarded. -/
theorem c6_opaque_reraise (vi : VideoInfo) (q : String) (e : PyErr) :
    (download_and_store_track vi (.raises e) q).outcome
      = .error ⟨"Exception", "Failed to download track: " ++ e.msg⟩
    ∧ ∀ e' : PyErr, e'.msg = e.msg →
        (download_and_store_track vi (.raises e') q).outcome
          = (download_and_store_track vi (.raises e) q).outcome := by
  refine ⟨rfl, fun e' h => ?_⟩
  simp [download_and_store_track, h]

/-- Witness for C6: two different error types with the same message
collapse to the same re-raised error. -/
theorem c6_witness :
    (⟨"OSError", "boom"⟩ : PyErr).msg = (⟨"DownloadError", "boom"⟩ : PyErr).msg ∧
    (download_and_store_track [] (.raises ⟨"OSError", "boom"⟩) "q").outcome
      = (download_and_store_track [] (.raises ⟨"DownloadError", "boom"⟩) "q").outcome ∧
    (download_and_store_track [] (.raises ⟨"DownloadError", "boom"⟩) "q").outcome
      = .error ⟨"Exception", "Failed to download track: boom"⟩ :=
  ⟨rfl,
   (c6_opaque_reraise [] "q" ⟨"DownloadError", "boom"⟩).2 ⟨"OSError", "boom"⟩ rfl,
   (c6_opaque_reraise [] "q" ⟨"DownloadError", "boom"⟩).1⟩

/-- C8: the root download directory comes from the single environment
variable `DOWNLOAD_PATH` with default `"./"` (the current working
directory); startup creates it when missing and succeeds whether or not
it already exists — running startup on the resulting filesystem again
succeeds and changes nothing. -/
theorem c8_startup_directory (env : List (String × String)) (fs : List String) :
    download_path env = (List.lookup "DOWNLOAD_PATH" env).getD "./"
    ∧ startup env fs
        = .ok (if download_path env ∈ fs then fs else download_path env :: fs)
    ∧ download_path env ∈ (if download_path env ∈ fs then fs else download_path env :: fs)
    ∧ startup env (if download_path env ∈ fs then fs else download_path env :: fs)
        = .ok (if download_path env ∈ fs then fs else download_path env :: fs) := by
  refine ⟨rfl, ?_, ?_, ?_⟩ <;> by_cases h : download_path env ∈ fs <;>
    simp [startup, pyMkdir, h]

/-- C9: for any two resolved items and a fixed query, the Fetcher issues
the identical download request, built solely from the query as
`"ytsearch1:" ++ query`; the item's metadata influences the result only
through its title and uploader fields — items agreeing on those two
fields produce identical runs. -/
theorem c9_request_independent_of_item (vi₁ vi₂ : VideoInfo) (dl : DownloadBehavior)
    (q : String) :
    (download_and_store_track vi₁ dl q).request = (download_and_store_track vi₂ dl q).request
    ∧ (download_and_store_track vi₁ dl q).request = "ytsearch1:" ++ q
    ∧ (pyGet vi₁ "title" "Unknown Title" = pyGet vi₂ "title" "Unknown Title" →
       pyGet vi₁ "uploader" "Unknown Artist" = pyGet vi₂ "uploader" "Unknown Artist" →
       download_and_store_track vi₁ dl q = download_and_store_track vi₂ dl q) := by
  refine ⟨rfl, rfl, fun ht hu => ?_⟩
  cases dl with
  | raises e => rfl
  | completes evs =>
    simp only [download_and_store_track]
    cases (evs.filter (fun d => d.status == "finished")).map (fun d => d.filename) with
    | nil => rfl
    | cons f rest =>
      cases hm : ensureMp3 f with
      | error err => simp [hm]
      | ok nf => simp [hm, ht, hu]

/-- Witness for C9: items differing only in their identifier give the
same run. -/
theorem c9_witness :
    pyGet [("id", "AAA"), ("title", "T"), ("uploader", "U")] "title" "Unknown Title"
      = pyGet [("id", "BBB"), ("title", "T"), ("uploader", "U")] "title" "Unknown Title" ∧
    pyGet [("id", "AAA"), ("title", "T"), ("uploader", "U")] "uploader" "Unknown Artist"
      = pyGet [("id", "BBB"), ("title", "T"), ("uploader", "U")] "uploader" "Unknown Artist" ∧
    download_and_store_track [("id", "AAA"), ("title", "T"), ("uploader", "U")]
        (.completes [⟨"finished", "/d/S/S.webm"⟩]) "q"
      = download_and_store_track [("id", "BBB"), ("title", "T"), ("uploader", "U")]
        (.completes [⟨"finished", "/d/S/S.webm"⟩]) "q" :=
  ⟨by decide, by decide,
   (c9_request_independent_of_item _ _ _ _).2.2 (by decide) (by decide)⟩

/-- C10: when the search succeeds but its first entry is falsy (the empty
dict), the Resolver hands that entry on, and the Request Handler's
truthiness test treats it as "no results": it returns the fixed
no-results message and never invokes the Fetcher. -/
theorem c10_falsy_first_entry (rest : List VideoInfo) (dl : DownloadBehavior) (q : String) :
    get_youtube_info (.ok (some ⟨some ([] :: rest)⟩)) = some [] ∧
    download_and_play_run (.ok (some ⟨some ([] :: rest)⟩)) dl q
      = ("No search results found on YouTube for your query.", false) :=
  ⟨rfl, rfl⟩

/-- C2: the Request Handler's embedding is a total `String`-valued
function (the catch-all `except` means no exception crosses the RPC
boundary), and when the download collaborator raises during the fetch
the handler's returned text contains `"Failed to download track"` — the
only other possibility being that the fetch was never reached and the
fixed no-results message was returned. -/
theorem c2_handler_raise_collapses_to_text (sr : SearchOutcome) (e : PyErr) (q : String) :
    download_and_play sr (.raises e) q
      = "No search results found on YouTube for your query."
    ∨ containsStr (download_and_play sr (.raises e) q) "Failed to download track" := by
  cases hres : get_youtube_info sr with
  | none => exact Or.inl (by simp [download_and_play, download_and_play_run, hres])
  | some vi =>
    by_cases hvi : vi.isEmpty
    · exact Or.inl (by simp [download_and_play, download_and_play_run, hres, hvi])
    · right
      have hval : download_and_play sr (.raises e) q
          = "‚ùå Error processing request: " ++ ("Failed to download track: " ++ e.msg) := by
        simp [download_and_play, download_and_play_run, hres, hvi, download_and_store_track]
      rw [hval]
      have hsplit : ("Failed to download track: " : String)
          = "Failed to download track" ++ ": " := rfl
      rw [hsplit]
      exact containsStr_left _ (containsStr_right _ (containsStr_right _ (containsStr_refl _)))

/-- C4: when a completion notification reports file `f` (first finished
file) and the extension step returns `nf`, the success message embeds
`nf`'s base name, and `nf` carries the `.mp3` suffix up to case —
exactly: when `f`'s suffix is not `".mp3"` case-insensitively, the
suffix is replaced so that `nf`'s suffix is literally `".mp3"`;
otherwise the path is unchanged (`nf = f`). -/
theorem c4_extension_normalised (vi : VideoInfo) (q : String) (evs : List HookEvent)
    (f : String) (rest : List String) (nf : String)
    (hfiles : (evs.filter (fun d => d.status == "finished")).map (fun d => d.filename)
      = f :: rest)
    (hok : ensureMp3 f = .ok nf) :
    (download_and_store_track vi (.completes evs) q).outcome =
      .ok (success_msg (pyGet vi "title" "Unknown Title")
        (pyGet vi "uploader" "Unknown Artist") (pathName nf))
    ∧ lowerL (pySuffix nf).data = ".mp3".data
    ∧ (lowerL (pySuffix f).data ≠ ".mp3".data → pySuffix nf = ".mp3")
    ∧ (lowerL (pySuffix f).data = ".mp3".data → nf = f) := by
  have hname : pathNameL f.data ≠ [] := by
    intro hnil
    by_cases hc : lowerL (pySuffix f).data = ".mp3".data
    · rw [pySuffix, hnil] at hc
      exact absurd hc (by decide)
    · have hbr : ensureMp3 f = pyWithSuffix f ".mp3" := by rw [ensureMp3, if_pos hc]
      rw [hbr, pyWithSuffix] at hok
      simp only [hnil] at hok
      simp at hok
  obtain ⟨nf', hok', h1, h2, h3⟩ := ensureMp3_ok hname
  have hnf : nf' = nf := Except.ok.inj (hok'.symm.trans hok)
  subst hnf
  exact ⟨fetch_success_outcome vi q evs f rest hfiles hok, h1, h2, h3⟩

/-- Witness for C4 at a concrete reported `.webm` file. -/
theorem c4_witness :
    (([⟨"finished", "/d/Song/Song.webm"⟩] : List HookEvent).filter
        (fun d => d.status == "finished")).map (fun d => d.filename)
      = "/d/Song/Song.webm" :: [] ∧
    ensureMp3 "/d/Song/Song.webm" = .ok "/d/Song/Song.mp3" ∧
    ((download_and_store_track [] (.completes [⟨"finished", "/d/Song/Song.webm"⟩])
        "q").outcome =
      .ok (success_msg (pyGet [] "title" "Unknown Title")
        (pyGet [] "uploader" "Unknown Artist") (pathName "/d/Song/Song.mp3"))
    ∧ lowerL (pySuffix "/d/Song/Song.mp3").data = ".mp3".data
    ∧ (lowerL (pySuffix "/d/Song/Song.webm").data ≠ ".mp3".data →
        pySuffix "/d/Song/Song.mp3" = ".mp3")
    ∧ (lowerL (pySuffix "/d/Song/Song.webm").data = ".mp3".data →
        "/d/Song/Song.mp3" = "/d/Song/Song.webm")) :=
  ⟨by decide, by decide,
   c4_extension_normalised [] "q" _ "/d/Song/Song.webm" [] "/d/Song/Song.mp3"
     (by decide) (by decide)⟩

/-- C7: in the success message, a missing title field is replaced by
"Unknown Title" and a missing uploader field by "Unknown Artist"; when
both fields are present their values appear verbatim in the message,
which also embeds the final file's base name. -/
theorem c7_placeholder_fields (vi : VideoInfo) (q : String) (evs : List HookEvent)
    (f : String) (rest : List String) (nf : String)
    (hfiles : (evs.filter (fun d => d.status == "finished")).map (fun d => d.filename)
      = f :: rest)
    (hok : ensureMp3 f = .ok nf) :
    (download_and_store_track vi (.completes evs) q).outcome =
      .ok (success_msg (pyGet vi "title" "Unknown Title")
        (pyGet vi "uploader" "Unknown Artist") (pathName nf))
    ∧ (List.lookup "title" vi = none →
        containsStr (success_msg (pyGet vi "title" "Unknown Title")
          (pyGet vi "uploader" "Unknown Artist") (pathName nf)) "Unknown Title")
    ∧ (List.lookup "uploader" vi = none →
        containsStr (success_msg (pyGet vi "title" "Unknown Title")
          (pyGet vi "uploader" "Unknown Artist") (pathName nf)) "Unknown Artist")
    ∧ (∀ t u : String, List.lookup "title" vi = some t →
        List.lookup "uploader" vi = some u →
        containsStr (success_msg (pyGet vi "title" "Unknown Title")
          (pyGet vi "uploader" "Unknown Artist") (pathName nf)) t
        ∧ containsStr (success_msg (pyGet vi "title" "Unknown Title")
          (pyGet vi "uploader" "Unknown Artist") (pathName nf)) u)
    ∧ containsStr (success_msg (pyGet vi "title" "Unknown Title")
        (pyGet vi "uploader" "Unknown Artist") (pathName nf)) (pathName nf) := by
  refine ⟨fetch_success_outcome vi q evs f rest hfiles hok, ?_, ?_, ?_, ?_⟩
  · intro ht
    have hx : pyGet vi "title" "Unknown Title" = "Unknown Title" := by simp [pyGet, ht]
    rw [hx]
    exact (success_msg_contains _ _ _).1
  · intro hu
    have hx : pyGet vi "uploader" "Unknown Artist" = "Unknown Artist" := by simp [pyGet, hu]
    rw [hx]
    exact (success_msg_contains _ _ _).2.1
  · intro t u ht hu
    have hxt : pyGet vi "title" "Unknown Title" = t := by simp [pyGet, ht]
    have hxu : pyGet vi "uploader" "Unknown Artist" = u := by simp [pyGet, hu]
    rw [hxt, hxu]
    exact ⟨(success_msg_contains _ _ _).1, (success_msg_contains _ _ _).2.1⟩
  · exact (success_msg_contains _ _ _).2.2

/-- Witness for C7 at a concrete item carrying both fields. -/
theorem c7_witness :
    (([⟨"finished", "/dl/Believer/Believer.webm"⟩] : List HookEvent).filter
        (fun d => d.status == "finished")).map (fun d => d.filename)
      = "/dl/Believer/Believer.webm" :: [] ∧
    ensureMp3 "/dl/Believer/Believer.webm" = .ok "/dl/Believer/Believer.mp3" ∧
    List.lookup "title" [("title", "Believer"), ("uploader", "Imagine Dragons")]
      = some "Believer" ∧
    List.lookup "uploader" [("title", "Believer"), ("uploader", "Imagine Dragons")]
      = some "Imagine Dragons" ∧
    containsStr (success_msg "Believer" "Imagine Dragons" "Believer.mp3") "Believer" ∧
    containsStr (success_msg "Believer" "Imagine Dragons" "Believer.mp3") "Imagine Dragons" ∧
    containsStr (success_msg "Believer" "Imagine Dragons" "Believer.mp3") "Believer.mp3" :=
  ⟨by decide, by decide, by decide, by decide,
   ((c7_placeholder_fields [("title", "Believer"), ("uploader", "Imagine Dragons")]
      "imagine dragons believer" [⟨"finished", "/dl/Believer/Believer.webm"⟩]
      "/dl/Believer/Believer.webm" [] "/dl/Believer/Believer.mp3"
      (by decide) (by decide)).2.2.2.1 "Believer" "Imagine Dragons"
      (by decide) (by decide)).1,
   ((c7_placeholder_fields [("title", "Believer"), ("uploader", "Imagine Dragons")]
      "imagine dragons believer" [⟨"finished", "/dl/Believer/Believer.webm"⟩]
      "/dl/Believer/Believer.webm" [] "/dl/Believer/Believer.mp3"
      (by decide) (by decide)).2.2.2.1 "Believer" "Imagine Dragons"
      (by decide) (by decide)).2,
   (c7_placeholder_fields [("title", "Believer"), ("uploader", "Imagine Dragons")]
      "imagine dragons believer" [⟨"finished", "/dl/Believer/Believer.webm"⟩]
      "/dl/Believer/Believer.webm" [] "/dl/Believer/Believer.mp3"
      (by decide) (by decide)).2.2.2.2⟩
